import Mathlib

/-
Verification of the per-user journal record storage program
(anchor/programs/journal/src/lib.rs, canonical revision with
MAX_TITLE_CHARS = 50 and MAX_MESSAGE_CHARS = 280; the PDA-optimized
variant in programs/new-crud-app/src/lib.rs follows the same scheme).

The embedding models the on-chain state as finite association maps from
derived addresses to accounts, and each instruction as a pure function
from (state, caller-supplied accounts and arguments) to
`Except OpError Chain`.  Returning `.error e` models the transaction
aborting: the runtime discards every staged mutation, so no new state is
produced (this is the all-or-nothing atomicity the execution environment
guarantees).  Account resolution, the `seeds`/`bump` re-derivation check,
`has_one`, `init` and `close = authority` are translated from the
`#[derive(Accounts)]` constraint blocks in the order the framework
evaluates them (account deserialization, then `seeds`, then `has_one`,
then the instruction body).
-/

deriving instance DecidableEq for Except

set_option maxRecDepth 100000

namespace Journal

/-- Maximum value of an unsigned 64-bit integer (`u64::MAX`). -/
def U64MAX : Nat := 18446744073709551615

/-- Source constant `MAX_TITLE_CHARS = 50` (characters, not bytes). -/
def MAX_TITLE_CHARS : Nat := 50

/-- Source constant `MAX_MESSAGE_CHARS = 280` (characters, not bytes). -/
def MAX_MESSAGE_CHARS : Nat := 280

/-- The checked increment from the source:
`user_profile.entry_count.checked_add(1)` on a `u64` returns `None`
exactly when the sum would exceed `u64::MAX`. -/
def checkedAdd (a b : Nat) : Option Nat :=
  if a + b ≤ U64MAX then some (a + b) else none

/-- Derived storage addresses (program-derived addresses).  The seed
tuples from the source are `[b"user_profile", owner]` for the counter
and `[b"journal_entry", owner, sequence.to_le_bytes()]` for a record;
the distinct namespace tags become distinct constructors, and the
disambiguator ("bump") appended to the seeds is the last field.
Injectivity of the constructors models the assumed collision resistance
of the underlying hash-to-address derivation. -/
inductive Address where
  | counter (owner : Nat) (bump : Nat)
  | entry (owner : Nat) (seq : Nat) (bump : Nat)
deriving DecidableEq

/-- Errors an operation can surface.  `TitleTooLong`, `MessageTooLong`
and `Overflow` are the source's `JournalError` variants; the others are
the framework/runtime errors the constraint blocks produce: `NotFound`
is account-not-found at the supplied address, `WrongAddress` is the
seeds/bump re-derivation mismatch (ConstraintSeeds), `AuthorizationError`
is the `has_one = authority` violation (ConstraintHasOne),
`AlreadyInitialized` is `init` on an address already in use,
`InsufficientFunds` is the payer lacking the lamports for the
allocation, and `AccountDidNotSerialize` is the exit serialization of a
mutated account failing because its borsh-serialized content exceeds the
space allocated at creation. -/
inductive OpError where
  | TitleTooLong
  | MessageTooLong
  | Overflow
  | NotFound
  | WrongAddress
  | AuthorizationError
  | AlreadyInitialized
  | InsufficientFunds
  | AccountDidNotSerialize
deriving DecidableEq

/-- The per-owner counter account (`UserProfile` in the source):
`authority: Pubkey`, `entry_count: u64`, `bump: u8`. -/
structure UserProfile where
  authority : Nat
  entry_count : Nat
  bump : Nat
deriving DecidableEq

/-- A journal record account (`JournalEntry` in the source):
`authority: Pubkey`, `id: u64`, `title: String`, `message: String`,
`timestamp: i64`, `bump: u8`.  Text is modelled as its sequence of
Unicode characters, matching Rust `String` viewed through `.chars()`. -/
structure JournalEntry where
  authority : Nat
  id : Nat
  title : List Char
  message : List Char
  timestamp : Int
  bump : Nat
deriving DecidableEq

/-- On-chain state: the accounts of each kind keyed by address, the
lamport balance held by each allocated account, and the wallet balances
of the signers (used as payer for `init` and recipient for
`close = authority`). -/
structure Chain where
  counters : List (Address × UserProfile)
  entries : List (Address × JournalEntry)
  acctLamports : List (Address × Nat)
  wallets : List (Nat × Nat)
deriving DecidableEq

/-- Lookup in an association list (first match wins). -/
def alookup {κ α : Type} [DecidableEq κ] : List (κ × α) → κ → Option α
  | [], _ => none
  | (k, v) :: rest, a => if k = a then some v else alookup rest a

/-- Overwrite the value at a key, leaving other keys untouched. -/
def aset {κ α : Type} [DecidableEq κ] : List (κ × α) → κ → α → List (κ × α)
  | [], _, _ => []
  | (k, v) :: rest, a, w =>
      if k = a then (k, w) :: aset rest a w else (k, v) :: aset rest a w

/-- Remove every binding of a key. -/
def aerase {κ α : Type} [DecidableEq κ] : List (κ × α) → κ → List (κ × α)
  | [], _ => []
  | (k, v) :: rest, a =>
      if k = a then aerase rest a else (k, v) :: aerase rest a

/-- Balance lookup with default 0. -/
def aget {κ : Type} [DecidableEq κ] (l : List (κ × Nat)) (k : κ) : Nat :=
  (alookup l k).getD 0

/-- Set a wallet balance. -/
def wset (l : List (Nat × Nat)) (k v : Nat) : List (Nat × Nat) :=
  (k, v) :: aerase l k

/-- Modelled from the spec (section 4.1): the environment's address
derivation searches the disambiguator space for the first value that
yields a valid off-curve address for the counter seeds; it is a
deterministic pure function of the seeds.  The concrete value is
irrelevant to every property proved here, so the search is modelled by a
constant function. -/
def counterBump (_owner : Nat) : Nat := 255

/-- Modelled from the spec (section 4.1): canonical disambiguator for a
record's seed tuple, deterministic in the seeds. -/
def entryBump (_owner _seq : Nat) : Nat := 255

/-- The canonical derived address of an owner's counter
(`seeds = [USER_PROFILE_SEED_PREFIX, authority.key()]` with the
canonical bump). -/
def counterAddress (owner : Nat) : Address :=
  Address.counter owner (counterBump owner)

/-- The canonical derived address of the record at a given sequence
(`seeds = [JOURNAL_ENTRY_SEED_PREFIX, authority.key(), seq.to_le_bytes()]`
with the canonical bump). -/
def entryAddress (owner seq : Nat) : Address :=
  Address.entry owner seq (entryBump owner seq)

/-- Number of bytes of the UTF-8 encoding of a text: the sum of the
UTF-8 sizes of its characters (what Rust `String::len` returns). -/
def utf8Len (s : List Char) : Nat := (s.map Char.utf8Size).sum

/-- Bytes the account layout reserves for a bounded text field:
4-byte length prefix plus one byte per declared maximum character
(`#[max_len(N)]` contributes `4 + N` to `INIT_SPACE`). -/
def stringReserved (maxChars : Nat) : Nat := 4 + maxChars

/-- Bytes the serialized content of a text field actually occupies:
4-byte length prefix plus the UTF-8 payload. -/
def stringSerialized (s : List Char) : Nat := 4 + utf8Len s

/-- Total account size reserved for a `JournalEntry` at creation:
8 (discriminator) + 32 (authority) + 8 (id) + title + message +
8 (timestamp) + 1 (bump), i.e. `8 + JournalEntry::INIT_SPACE`. -/
def journalEntrySpace : Nat :=
  8 + 32 + 8 + stringReserved MAX_TITLE_CHARS +
    stringReserved MAX_MESSAGE_CHARS + 8 + 1

/-- Byte size of the borsh serialization of a journal record account
holding the given texts: 8 (discriminator) + 32 (authority Pubkey) +
8 (id u64) + serialized title + serialized message + 8 (timestamp i64) +
1 (bump u8).  Only the two text fields vary; every other field is
fixed-width.  When a mutated account is written back at instruction
exit, the runtime fails with `AccountDidNotSerialize` if this size
exceeds the space allocated at creation (`journalEntrySpace`). -/
def serializedRecordSize (title message : List Char) : Nat :=
  8 + 32 + 8 + stringSerialized title + stringSerialized message + 8 + 1

/-- The instruction `initialize_user_profile` (source lines 258-265 with
the `InitializeUserProfile` accounts block): `init` a counter at the
canonical derived address for the signer, paid by the signer; store
`authority = signer`, `entry_count = 0` and the resolved bump.  `init`
fails if an account already resolves at that address; funding the
allocation fails if the payer's balance is short. -/
def init_user_profile (st : Chain) (signer : Nat) (rent : Nat) :
    Except OpError Chain :=
  match alookup st.counters (counterAddress signer) with
  | some _ => .error .AlreadyInitialized
  | none =>
      if aget st.wallets signer < rent then .error .InsufficientFunds
      else
        .ok { st with
          counters :=
            (counterAddress signer, ⟨signer, 0, counterBump signer⟩) :: st.counters,
          acctLamports := (counterAddress signer, rent) :: st.acctLamports,
          wallets := wset st.wallets signer (aget st.wallets signer - rent) }

/-- The instruction `add_journal_entry` (source lines 267-292 with the
`AddJournalEntry` accounts block).  Account resolution first: the
counter account the caller passed is deserialized (`NotFound` if
absent), its address is re-derived from the signer's key and the stored
bump (`WrongAddress` on mismatch, the ConstraintSeeds check), then
`has_one = authority` (`AuthorizationError`); the record account is
`init`-allocated at the address derived from the counter's current
`entry_count`.  The body then bounds `title.chars().count()` and
`message.chars().count()`, writes the record fields with
`id = entry_count` (the pre-increment value) and the resolved bump, and
increments the counter with `checked_add(1)`, failing with `Overflow`
instead of wrapping.  After the body, the runtime serializes the mutated
accounts back into their allocations; the record account was allocated
with `space = 8 + JournalEntry::INIT_SPACE`, so the write fails with
`AccountDidNotSerialize` when the serialized content exceeds that space
(the fixed-size counter account always fits).  Any error aborts the
transaction, so the state on the error paths is discarded by the
runtime. -/
def add_journal_entry (st : Chain) (signer : Nat) (profileAddr : Address)
    (title message : List Char) (now : Int) (rent : Nat) :
    Except OpError Chain :=
  match alookup st.counters profileAddr with
  | none => .error .NotFound
  | some p =>
      if Address.counter signer p.bump ≠ profileAddr then .error .WrongAddress
      else if p.authority ≠ signer then .error .AuthorizationError
      else
        if (alookup st.entries (entryAddress signer p.entry_count)).isSome then
          .error .AlreadyInitialized
        else if aget st.wallets signer < rent then .error .InsufficientFunds
        else if title.length > MAX_TITLE_CHARS then .error .TitleTooLong
        else if message.length > MAX_MESSAGE_CHARS then .error .MessageTooLong
        else
          match checkedAdd p.entry_count 1 with
          | none => .error .Overflow
          | some newCount =>
              if serializedRecordSize title message > journalEntrySpace then
                .error .AccountDidNotSerialize
              else
              .ok { st with
                counters :=
                  aset st.counters profileAddr { p with entry_count := newCount },
                entries :=
                  (entryAddress signer p.entry_count,
                    ⟨signer, p.entry_count, title, message, now,
                      entryBump signer p.entry_count⟩) :: st.entries,
                acctLamports :=
                  (entryAddress signer p.entry_count, rent) :: st.acctLamports,
                wallets :=
                  wset st.wallets signer (aget st.wallets signer - rent) }

/-- The instruction `update_journal_entry` (source lines 294-311 with
the `UpdateJournalEntry` accounts block): resolve the record the caller
passed (`NotFound` if absent), re-derive its address from the signer's
key, the caller-supplied `entry_id` and the record's stored bump
(`WrongAddress` on mismatch), check `has_one = authority`
(`AuthorizationError`), bound the new title and message, then overwrite
`title`, `message` and `timestamp` only.  At instruction exit the runtime
serializes the mutated record back into its fixed allocation
(`journalEntrySpace` bytes, set at creation), failing with
`AccountDidNotSerialize` when the new serialized content does not fit. -/
def update_journal_entry (st : Chain) (signer : Nat) (addr : Address)
    (entry_id : Nat) (title message : List Char) (now : Int) :
    Except OpError Chain :=
  match alookup st.entries addr with
  | none => .error .NotFound
  | some je =>
      if Address.entry signer entry_id je.bump ≠ addr then .error .WrongAddress
      else if je.authority ≠ signer then .error .AuthorizationError
      else if title.length > MAX_TITLE_CHARS then .error .TitleTooLong
      else if message.length > MAX_MESSAGE_CHARS then .error .MessageTooLong
      else if serializedRecordSize title message > journalEntrySpace then
        .error .AccountDidNotSerialize
      else
        .ok { st with
          entries := aset st.entries addr
            { je with title := title, message := message, timestamp := now } }

/-- The instruction `delete_journal_entry` (source lines 313-323 with
the `DeleteJournalEntry` accounts block): resolve the record
(`NotFound` if absent), re-derive its address from the signer's key,
the supplied `entry_id` and the stored bump (`WrongAddress` on
mismatch), check `has_one = authority`; the body does nothing, and
`close = authority` destroys the account and credits its lamports to
the signer.  The counter account is not among the instruction's
accounts, so it is untouched. -/
def delete_journal_entry (st : Chain) (signer : Nat) (addr : Address)
    (entry_id : Nat) : Except OpError Chain :=
  match alookup st.entries addr with
  | none => .error .NotFound
  | some je =>
      if Address.entry signer entry_id je.bump ≠ addr then .error .WrongAddress
      else if je.authority ≠ signer then .error .AuthorizationError
      else
        .ok { st with
          entries := aerase st.entries addr,
          acctLamports := aerase st.acctLamports addr,
          wallets := wset st.wallets signer
            (aget st.wallets signer + aget st.acctLamports addr) }

/-!
Lemmas about the association-map helpers and characterizations of the
successful runs of each instruction, shared by the claim theorems below.
-/

theorem alookup_cons_self {κ α : Type} [DecidableEq κ] (l : List (κ × α)) (k : κ) (v : α) :
    alookup ((k, v) :: l) k = some v := by
  simp [alookup]

theorem alookup_cons_ne {κ α : Type} [DecidableEq κ] (l : List (κ × α)) (k a : κ) (v : α)
    (h : k ≠ a) : alookup ((k, v) :: l) a = alookup l a := by
  simp [alookup, h]

theorem alookup_aset_self {κ α : Type} [DecidableEq κ] (l : List (κ × α)) (k : κ) (w : α) :
    alookup (aset l k w) k = Option.map (fun _ => w) (alookup l k) := by
  induction l with
  | nil => simp [alookup, aset]
  | cons p rest ih =>
      obtain ⟨k1, v1⟩ := p
      by_cases hk : k1 = k
      · subst hk; simp [alookup, aset]
      · simp [alookup, aset, hk, ih]

theorem alookup_aset_ne {κ α : Type} [DecidableEq κ] (l : List (κ × α)) (k a : κ) (w : α)
    (h : a ≠ k) : alookup (aset l k w) a = alookup l a := by
  induction l with
  | nil => simp [aset]
  | cons p rest ih =>
      obtain ⟨k1, v1⟩ := p
      by_cases hk : k1 = k
      · subst hk
        simp [aset, alookup, Ne.symm h, ih]
      · simp [aset, alookup, hk, ih]

theorem alookup_aerase_self {κ α : Type} [DecidableEq κ] (l : List (κ × α)) (k : κ) :
    alookup (aerase l k) k = none := by
  induction l with
  | nil => simp [alookup, aerase]
  | cons p rest ih =>
      obtain ⟨k1, v1⟩ := p
      by_cases hk : k1 = k
      · subst hk; simp [aerase, ih]
      · simp [aerase, hk, alookup, ih]

theorem alookup_aerase_ne {κ α : Type} [DecidableEq κ] (l : List (κ × α)) (k a : κ)
    (h : a ≠ k) : alookup (aerase l k) a = alookup l a := by
  induction l with
  | nil => simp [aerase]
  | cons p rest ih =>
      obtain ⟨k1, v1⟩ := p
      by_cases hk : k1 = k
      · subst hk
        simp [aerase, alookup, Ne.symm h, ih]
      · simp [aerase, alookup, hk, ih]

theorem checkedAdd_one_eq (n m : Nat) (h : checkedAdd n 1 = some m) : m = n + 1 := by
  unfold checkedAdd at h
  split at h
  · injection h with h; omega
  · exact Option.noConfusion h

theorem checkedAdd_one_le (n m : Nat) (h : checkedAdd n 1 = some m) : n + 1 ≤ U64MAX := by
  unfold checkedAdd at h
  split at h
  · assumption
  · exact Option.noConfusion h

theorem add_ok_elim (st : Chain) (signer : Nat) (pAddr : Address)
    (title message : List Char) (now : Int) (rent : Nat) (st' : Chain)
    (h : add_journal_entry st signer pAddr title message now rent = .ok st') :
    ∃ p, alookup st.counters pAddr = some p ∧
      Address.counter signer p.bump = pAddr ∧
      p.authority = signer ∧
      alookup st.entries (entryAddress signer p.entry_count) = none ∧
      rent ≤ aget st.wallets signer ∧
      title.length ≤ MAX_TITLE_CHARS ∧
      message.length ≤ MAX_MESSAGE_CHARS ∧
      serializedRecordSize title message ≤ journalEntrySpace ∧
      p.entry_count + 1 ≤ U64MAX ∧
      st' = { st with
        counters := aset st.counters pAddr ⟨p.authority, p.entry_count + 1, p.bump⟩,
        entries := (entryAddress signer p.entry_count,
          ⟨signer, p.entry_count, title, message, now,
            entryBump signer p.entry_count⟩) :: st.entries,
        acctLamports := (entryAddress signer p.entry_count, rent) :: st.acctLamports,
        wallets := wset st.wallets signer (aget st.wallets signer - rent) } := by
  unfold add_journal_entry at h
  cases hp : alookup st.counters pAddr with
  | none => rw [hp] at h; exact Except.noConfusion h
  | some p =>
      rw [hp] at h
      dsimp only at h
      refine ⟨p, rfl, ?_⟩
      split at h
      · exact Except.noConfusion h
      next hseeds =>
      split at h
      · exact Except.noConfusion h
      next hauth =>
      split at h
      · exact Except.noConfusion h
      next hfresh =>
      split at h
      · exact Except.noConfusion h
      next hfund =>
      split at h
      · exact Except.noConfusion h
      next htitle =>
      split at h
      · exact Except.noConfusion h
      next hmsg =>
      cases hc : checkedAdd p.entry_count 1 with
      | none => rw [hc] at h; exact Except.noConfusion h
      | some newCount =>
          rw [hc] at h
          dsimp only at h
          split at h
          · exact Except.noConfusion h
          next hfit =>
          injection h with h
          subst h
          have hnc := checkedAdd_one_eq _ _ hc
          subst hnc
          refine ⟨not_not.mp hseeds, not_not.mp hauth, ?_, ?_, ?_, ?_, ?_, ?_, rfl⟩
          · exact Option.not_isSome_iff_eq_none.mp hfresh
          · omega
          · omega
          · omega
          · omega
          · exact checkedAdd_one_le _ _ hc

theorem checkedAdd_max : checkedAdd U64MAX 1 = none := by
  unfold checkedAdd
  rw [if_neg]
  omega

theorem update_ok_elim (st : Chain) (signer : Nat) (addr : Address)
    (entry_id : Nat) (title message : List Char) (now : Int) (st' : Chain)
    (h : update_journal_entry st signer addr entry_id title message now = .ok st') :
    ∃ je, alookup st.entries addr = some je ∧
      Address.entry signer entry_id je.bump = addr ∧
      je.authority = signer ∧
      title.length ≤ MAX_TITLE_CHARS ∧
      message.length ≤ MAX_MESSAGE_CHARS ∧
      serializedRecordSize title message ≤ journalEntrySpace ∧
      st' = { st with
        entries :=
          aset st.entries addr ⟨je.authority, je.id, title, message, now, je.bump⟩ } := by
  unfold update_journal_entry at h
  cases hje : alookup st.entries addr with
  | none => rw [hje] at h; exact Except.noConfusion h
  | some je =>
      rw [hje] at h
      dsimp only at h
      refine ⟨je, rfl, ?_⟩
      split at h
      · exact Except.noConfusion h
      next hseeds =>
      split at h
      · exact Except.noConfusion h
      next hauth =>
      split at h
      · exact Except.noConfusion h
      next htitle =>
      split at h
      · exact Except.noConfusion h
      next hmsg =>
      split at h
      · exact Except.noConfusion h
      next hfit =>
      injection h with h
      subst h
      exact ⟨not_not.mp hseeds, not_not.mp hauth, by omega, by omega, by omega, rfl⟩

theorem delete_ok_elim (st : Chain) (signer : Nat) (addr : Address)
    (entry_id : Nat) (st' : Chain)
    (h : delete_journal_entry st signer addr entry_id = .ok st') :
    ∃ je, alookup st.entries addr = some je ∧
      Address.entry signer entry_id je.bump = addr ∧
      je.authority = signer ∧
      st' = { st with
        entries := aerase st.entries addr,
        acctLamports := aerase st.acctLamports addr,
        wallets := wset st.wallets signer
          (aget st.wallets signer + aget st.acctLamports addr) } := by
  unfold delete_journal_entry at h
  cases hje : alookup st.entries addr with
  | none => rw [hje] at h; exact Except.noConfusion h
  | some je =>
      rw [hje] at h
      dsimp only at h
      refine ⟨je, rfl, ?_⟩
      split at h
      · exact Except.noConfusion h
      next hseeds =>
      split at h
      · exact Except.noConfusion h
      next hauth =>
      injection h with h
      subst h
      exact ⟨not_not.mp hseeds, not_not.mp hauth, rfl⟩

theorem init_ok_elim (st : Chain) (signer : Nat) (rent : Nat) (st' : Chain)
    (h : init_user_profile st signer rent = .ok st') :
    alookup st.counters (counterAddress signer) = none ∧
      rent ≤ aget st.wallets signer ∧
      st' = { st with
        counters := (counterAddress signer, ⟨signer, 0, counterBump signer⟩)
          :: st.counters,
        acctLamports := (counterAddress signer, rent) :: st.acctLamports,
        wallets := wset st.wallets signer (aget st.wallets signer - rent) } := by
  unfold init_user_profile at h
  cases hc : alookup st.counters (counterAddress signer) with
  | some p => rw [hc] at h; exact Except.noConfusion h
  | none =>
      rw [hc] at h
      dsimp only at h
      split at h
      · exact Except.noConfusion h
      next hfund =>
      injection h with h
      subst h
      exact ⟨rfl, by omega, rfl⟩

theorem add_ok_intro (st : Chain) (signer : Nat) (pAddr : Address)
    (title message : List Char) (now : Int) (rent : Nat) (p : UserProfile)
    (hp : alookup st.counters pAddr = some p)
    (hseeds : Address.counter signer p.bump = pAddr)
    (hauth : p.authority = signer)
    (hfresh : alookup st.entries (entryAddress signer p.entry_count) = none)
    (hfund : rent ≤ aget st.wallets signer)
    (htitle : title.length ≤ MAX_TITLE_CHARS)
    (hmsg : message.length ≤ MAX_MESSAGE_CHARS)
    (hfit : serializedRecordSize title message ≤ journalEntrySpace)
    (hof : p.entry_count + 1 ≤ U64MAX) :
    add_journal_entry st signer pAddr title message now rent = .ok { st with
      counters := aset st.counters pAddr ⟨p.authority, p.entry_count + 1, p.bump⟩,
      entries := (entryAddress signer p.entry_count,
        ⟨signer, p.entry_count, title, message, now,
          entryBump signer p.entry_count⟩) :: st.entries,
      acctLamports := (entryAddress signer p.entry_count, rent) :: st.acctLamports,
      wallets := wset st.wallets signer (aget st.wallets signer - rent) } := by
  unfold add_journal_entry
  rw [hp]
  dsimp only
  rw [if_neg (not_not_intro hseeds), if_neg (not_not_intro hauth)]
  rw [if_neg (by simp [hfresh]), if_neg (by omega), if_neg (by omega), if_neg (by omega)]
  have : checkedAdd p.entry_count 1 = some (p.entry_count + 1) := by
    unfold checkedAdd
    rw [if_pos hof]
  rw [this]
  dsimp only
  rw [if_neg (by omega)]

theorem update_ok_intro (st : Chain) (signer : Nat) (addr : Address)
    (entry_id : Nat) (title message : List Char) (now : Int) (je : JournalEntry)
    (hje : alookup st.entries addr = some je)
    (hseeds : Address.entry signer entry_id je.bump = addr)
    (hauth : je.authority = signer)
    (htitle : title.length ≤ MAX_TITLE_CHARS)
    (hmsg : message.length ≤ MAX_MESSAGE_CHARS)
    (hfit : serializedRecordSize title message ≤ journalEntrySpace) :
    update_journal_entry st signer addr entry_id title message now = .ok { st with
      entries :=
        aset st.entries addr
          ⟨je.authority, je.id, title, message, now, je.bump⟩ } := by
  unfold update_journal_entry
  rw [hje]
  dsimp only
  rw [if_neg (not_not_intro hseeds), if_neg (not_not_intro hauth),
    if_neg (by omega), if_neg (by omega), if_neg (by omega)]

/-! Concrete states used by the witnesses and counterexamples. -/

/-- Genesis state: no accounts, owner 1 holds 100 lamports. -/
def W0 : Chain := ⟨[], [], [], [(1, 100)]⟩

/-- State after owner 1 runs the counter-creating instruction on `W0`
with rent 10. -/
def stInit : Chain :=
  ⟨[(counterAddress 1, ⟨1, 0, 255⟩)], [],
   [(counterAddress 1, 10)], [(1, 90)]⟩

/-- State after owner 1 then creates the record at sequence 0
(title "a", message "b", timestamp 7, rent 10). -/
def stCre1 : Chain :=
  ⟨[(counterAddress 1, ⟨1, 1, 255⟩)],
   [(entryAddress 1 0, ⟨1, 0, ['a'], ['b'], 7, 255⟩)],
   [(entryAddress 1 0, 10), (counterAddress 1, 10)],
   [(1, 80)]⟩

/-- State whose counter for owner 1 already stands at `u64::MAX`. -/
def stMax : Chain :=
  ⟨[(counterAddress 1, ⟨1, U64MAX, 255⟩)], [],
   [(counterAddress 1, 10)], [(1, 90)]⟩

lemma run_init : init_user_profile W0 1 10 = .ok stInit := by decide

lemma run_cre1 :
    add_journal_entry stInit 1 (counterAddress 1) ['a'] ['b'] 7 10 = .ok stCre1 := by
  decide

/-- C1: for every successful `create_record` (`add_journal_entry`), the new
record's stored sequence (`id`) equals the owner counter's value as read at
the start of the operation (the pre-increment value), the record lands at
the address derived from that value, and the counter is then incremented by
exactly 1 — so the (n+1)-th successful create for an owner assigns
sequence n. -/
theorem c1_create_assigns_pre_increment_sequence
    (st : Chain) (signer : Nat) (pAddr : Address) (title message : List Char)
    (now : Int) (rent : Nat) (st' : Chain)
    (h : add_journal_entry st signer pAddr title message now rent = .ok st') :
    ∃ p, alookup st.counters pAddr = some p ∧
      alookup st'.entries (entryAddress signer p.entry_count) =
        some ⟨signer, p.entry_count, title, message, now,
          entryBump signer p.entry_count⟩ ∧
      alookup st'.counters pAddr = some ⟨p.authority, p.entry_count + 1, p.bump⟩ := by
  obtain ⟨p, hp, hseeds, hauth, hfresh, hfund, ht, hm, hfit, hof, hst⟩ :=
    add_ok_elim st signer pAddr title message now rent st' h
  subst hst
  refine ⟨p, hp, alookup_cons_self _ _ _, ?_⟩
  show alookup (aset st.counters pAddr _) pAddr = _
  rw [alookup_aset_self, hp]
  rfl

/-- Witness for C1 at a concrete input: owner 1 creates on `stInit`
(counter at 0) and the stored record has sequence 0 while the counter
moves to 1. -/
theorem c1_witness :
    ∃ p, alookup stInit.counters (counterAddress 1) = some p ∧
      alookup stCre1.entries (entryAddress 1 p.entry_count) =
        some ⟨1, p.entry_count, ['a'], ['b'], 7, entryBump 1 p.entry_count⟩ ∧
      alookup stCre1.counters (counterAddress 1) =
        some ⟨p.authority, p.entry_count + 1, p.bump⟩ :=
  c1_create_assigns_pre_increment_sequence stInit 1 (counterAddress 1)
    ['a'] ['b'] 7 10 stCre1 (by decide)

/-- C2: when the owner's counter stands at `u64::MAX = 2^64 - 1` and every
other precondition of `create_record` holds, the call fails with `Overflow`
(the checked increment refuses to wrap) and no success outcome exists; the
error aborts the transaction, so neither the record allocation nor any
counter change is observable and the counter remains at `2^64 - 1`. -/
theorem c2_create_overflow_fails_atomically
    (st : Chain) (signer : Nat) (pAddr : Address) (title message : List Char)
    (now : Int) (rent : Nat) (p : UserProfile)
    (hp : alookup st.counters pAddr = some p)
    (hmax : p.entry_count = U64MAX)
    (hseeds : Address.counter signer p.bump = pAddr)
    (hauth : p.authority = signer)
    (hfresh : alookup st.entries (entryAddress signer p.entry_count) = none)
    (hfund : rent ≤ aget st.wallets signer)
    (htitle : title.length ≤ MAX_TITLE_CHARS)
    (hmsg : message.length ≤ MAX_MESSAGE_CHARS) :
    add_journal_entry st signer pAddr title message now rent = .error .Overflow ∧
    ∀ st', add_journal_entry st signer pAddr title message now rent ≠ .ok st' := by
  have hmain :
      add_journal_entry st signer pAddr title message now rent = .error .Overflow := by
    unfold add_journal_entry
    rw [hp]
    dsimp only
    rw [if_neg (not_not_intro hseeds), if_neg (not_not_intro hauth),
      if_neg (by simp [hfresh]), if_neg (by omega), if_neg (by omega),
      if_neg (by omega), hmax, checkedAdd_max]
  exact ⟨hmain, fun st' hco => by rw [hmain] at hco; exact Except.noConfusion hco⟩

/-- Witness for C2 at a concrete input: on `stMax` the create call returns
`Overflow`. -/
theorem c2_witness :
    add_journal_entry stMax 1 (counterAddress 1) ['a'] ['b'] 7 10 =
      .error .Overflow ∧
    ∀ st', add_journal_entry stMax 1 (counterAddress 1) ['a'] ['b'] 7 10 ≠
      .ok st' :=
  c2_create_overflow_fails_atomically stMax 1 (counterAddress 1) ['a'] ['b'] 7 10
    ⟨1, U64MAX, 255⟩ (by decide) (by decide) (by decide) (by decide) (by decide)
    (by decide) (by decide) (by decide)

/-- C3 counterexample: owner 1 creates the record at sequence 0 (state
`stCre1`); caller 2, whose identity does not match the stored owner 1,
attempts the update passing the record's actual address.  The call fails —
but with the wrong-address (seeds re-derivation) error, not with the
authorization error the claim names: the seeds check uses the signer's own
key and runs before `has_one`. -/
theorem c3_counterexample :
    add_journal_entry stInit 1 (counterAddress 1) ['a'] ['b'] 7 10 = .ok stCre1 ∧
    update_journal_entry stCre1 2 (entryAddress 1 0) 0 ['x'] ['y'] 9 =
      .error .WrongAddress ∧
    update_journal_entry stCre1 2 (entryAddress 1 0) 0 ['x'] ['y'] 9 ≠
      .error .AuthorizationError := by
  exact ⟨by decide, by decide, by decide⟩

/-- C3 (amended): for every record stored at an address derived from owner
A's key, an update attempt by a caller B whose verified identity differs
from A fails closed — with the wrong-address error produced by the seeds
re-derivation check (which embeds the signer's key and runs before the
`has_one` authorization check) — and no success outcome exists, so the
record is left unchanged. -/
theorem c3_update_by_non_owner_fails_wrong_address
    (st : Chain) (A seq b : Nat) (je : JournalEntry) (B idx : Nat)
    (title message : List Char) (now : Int)
    (hje : alookup st.entries (Address.entry A seq b) = some je)
    (_hA : je.authority = A)
    (hBA : B ≠ A) :
    update_journal_entry st B (Address.entry A seq b) idx title message now =
      .error .WrongAddress ∧
    ∀ st', update_journal_entry st B (Address.entry A seq b) idx title message now ≠
      .ok st' := by
  have hmain :
      update_journal_entry st B (Address.entry A seq b) idx title message now =
        .error .WrongAddress := by
    unfold update_journal_entry
    rw [hje]
    dsimp only
    rw [if_pos (by simp [Address.entry.injEq, hBA])]
  exact ⟨hmain, fun st' hco => by rw [hmain] at hco; exact Except.noConfusion hco⟩

/-- Witness for the amended C3 at a concrete input: caller 2 against owner
1's record at sequence 0. -/
theorem c3_witness :
    update_journal_entry stCre1 2 (entryAddress 1 0) 0 ['x'] ['y'] 9 =
      .error .WrongAddress ∧
    ∀ st', update_journal_entry stCre1 2 (entryAddress 1 0) 0 ['x'] ['y'] 9 ≠
      .ok st' :=
  c3_update_by_non_owner_fails_wrong_address stCre1 1 0 255
    ⟨1, 0, ['a'], ['b'], 7, 255⟩ 2 0 ['x'] ['y'] 9 (by decide) (by decide)
    (by decide)

/-- C4 counterexample: the original claim states that a title of exactly
the maximum character count (50) and a body of exactly the maximum (280)
are accepted.  At the concrete input below — a 50-character title of
3-byte characters together with a 280-character single-byte body — both
create and update pass every length check yet abort at exit with
`AccountDidNotSerialize`: the serialized record (495 bytes) exceeds the
395 bytes allocated at creation, so the at-bound content is not
accepted. -/
theorem c4_counterexample :
    add_journal_entry stCre1 1 (counterAddress 1) (List.replicate 50 '€')
      (List.replicate 280 'b') 7 10 = .error .AccountDidNotSerialize ∧
    update_journal_entry stCre1 1 (entryAddress 1 0) 0 (List.replicate 50 '€')
      (List.replicate 280 'b') 9 = .error .AccountDidNotSerialize :=
  ⟨by decide, by decide⟩

/-- C4 (amended): for both create and update, the content-length
validation accepts a title of exactly 50 characters and rejects one of 51
with `TitleTooLong`, accepts a body of exactly 280 characters and rejects
one of 281 with `MessageTooLong`; the rejection happens in the body
before any record field is written, and the error aborts the
transaction, so the failing cases mutate nothing.  At-bound content
completes the operation successfully exactly when its serialized form
also fits the byte budget reserved at creation — always the case for
single-byte content, but refutable for multi-byte UTF-8 text, where the
operation aborts at exit with `AccountDidNotSerialize` (the divergence
reported by C5) — so the acceptance parts carry that fit hypothesis.
The remaining hypotheses state that every other precondition of the two
instructions holds, so that the content checks decide the outcome. -/
theorem c4_length_boundaries
    (st : Chain) (signer : Nat) (pAddr : Address) (rent : Nat) (now : Int)
    (p : UserProfile) (addr : Address) (entry_id : Nat) (je : JournalEntry)
    (hp : alookup st.counters pAddr = some p)
    (hpseeds : Address.counter signer p.bump = pAddr)
    (hpauth : p.authority = signer)
    (hfresh : alookup st.entries (entryAddress signer p.entry_count) = none)
    (hfund : rent ≤ aget st.wallets signer)
    (hof : p.entry_count + 1 ≤ U64MAX)
    (hje : alookup st.entries addr = some je)
    (heseeds : Address.entry signer entry_id je.bump = addr)
    (heauth : je.authority = signer) :
    (∀ title message : List Char, title.length = 50 → message.length ≤ 280 →
      serializedRecordSize title message ≤ journalEntrySpace →
      ∃ st', add_journal_entry st signer pAddr title message now rent = .ok st') ∧
    (∀ title message : List Char, title.length = 51 →
      add_journal_entry st signer pAddr title message now rent =
        .error .TitleTooLong) ∧
    (∀ title message : List Char, title.length ≤ 50 → message.length = 280 →
      serializedRecordSize title message ≤ journalEntrySpace →
      ∃ st', add_journal_entry st signer pAddr title message now rent = .ok st') ∧
    (∀ title message : List Char, title.length ≤ 50 → message.length = 281 →
      add_journal_entry st signer pAddr title message now rent =
        .error .MessageTooLong) ∧
    (∀ title message : List Char, title.length = 50 → message.length ≤ 280 →
      serializedRecordSize title message ≤ journalEntrySpace →
      ∃ st', update_journal_entry st signer addr entry_id title message now =
        .ok st') ∧
    (∀ title message : List Char, title.length = 51 →
      update_journal_entry st signer addr entry_id title message now =
        .error .TitleTooLong) ∧
    (∀ title message : List Char, title.length ≤ 50 → message.length = 280 →
      serializedRecordSize title message ≤ journalEntrySpace →
      ∃ st', update_journal_entry st signer addr entry_id title message now =
        .ok st') ∧
    (∀ title message : List Char, title.length ≤ 50 → message.length = 281 →
      update_journal_entry st signer addr entry_id title message now =
        .error .MessageTooLong) := by
  have haddT : ∀ title message : List Char, title.length ≤ 50 →
      message.length ≤ 280 →
      serializedRecordSize title message ≤ journalEntrySpace →
      ∃ st', add_journal_entry st signer pAddr title message now rent = .ok st' :=
    fun title message ht hm hfit =>
      ⟨_, add_ok_intro st signer pAddr title message now rent p hp hpseeds hpauth
        hfresh hfund ht hm hfit hof⟩
  have hupdT : ∀ title message : List Char, title.length ≤ 50 →
      message.length ≤ 280 →
      serializedRecordSize title message ≤ journalEntrySpace →
      ∃ st', update_journal_entry st signer addr entry_id title message now =
        .ok st' :=
    fun title message ht hm hfit =>
      ⟨_, update_ok_intro st signer addr entry_id title message now je hje heseeds
        heauth ht hm hfit⟩
  refine ⟨fun t m ht hm hfit => haddT t m (by omega) hm hfit, ?_,
    fun t m ht hm hfit => haddT t m ht (by omega) hfit, ?_,
    fun t m ht hm hfit => hupdT t m (by omega) hm hfit, ?_,
    fun t m ht hm hfit => hupdT t m ht (by omega) hfit, ?_⟩
  · intro title message ht
    unfold add_journal_entry
    rw [hp]
    dsimp only
    rw [if_neg (not_not_intro hpseeds), if_neg (not_not_intro hpauth),
      if_neg (by simp [hfresh]), if_neg (by omega),
      if_pos (by simp only [MAX_TITLE_CHARS]; omega)]
  · intro title message ht hm
    unfold add_journal_entry
    rw [hp]
    dsimp only
    rw [if_neg (not_not_intro hpseeds), if_neg (not_not_intro hpauth),
      if_neg (by simp [hfresh]), if_neg (by omega),
      if_neg (by simp only [MAX_TITLE_CHARS]; omega),
      if_pos (by simp only [MAX_MESSAGE_CHARS]; omega)]
  · intro title message ht
    unfold update_journal_entry
    rw [hje]
    dsimp only
    rw [if_neg (not_not_intro heseeds), if_neg (not_not_intro heauth),
      if_pos (by simp only [MAX_TITLE_CHARS]; omega)]
  · intro title message ht hm
    unfold update_journal_entry
    rw [hje]
    dsimp only
    rw [if_neg (not_not_intro heseeds), if_neg (not_not_intro heauth),
      if_neg (by simp only [MAX_TITLE_CHARS]; omega),
      if_pos (by simp only [MAX_MESSAGE_CHARS]; omega)]

/-- Witness for the amended C4 at a concrete input: on `stCre1` (counter
at 1, record at sequence 0) the boundary outcomes are realized with
concrete single-byte titles and messages of lengths 50, 51, 280 and 281,
whose serialized forms fit the reserved space. -/
theorem c4_witness :
    (∃ st', add_journal_entry stCre1 1 (counterAddress 1)
      (List.replicate 50 'a') ['b'] 7 10 = .ok st') ∧
    add_journal_entry stCre1 1 (counterAddress 1)
      (List.replicate 51 'a') ['b'] 7 10 = .error .TitleTooLong ∧
    (∃ st', add_journal_entry stCre1 1 (counterAddress 1)
      ['a'] (List.replicate 280 'b') 7 10 = .ok st') ∧
    add_journal_entry stCre1 1 (counterAddress 1)
      ['a'] (List.replicate 281 'b') 7 10 = .error .MessageTooLong ∧
    (∃ st', update_journal_entry stCre1 1 (entryAddress 1 0) 0
      (List.replicate 50 'a') ['b'] 7 = .ok st') ∧
    update_journal_entry stCre1 1 (entryAddress 1 0) 0
      (List.replicate 51 'a') ['b'] 7 = .error .TitleTooLong ∧
    (∃ st', update_journal_entry stCre1 1 (entryAddress 1 0) 0
      ['a'] (List.replicate 280 'b') 7 = .ok st') ∧
    update_journal_entry stCre1 1 (entryAddress 1 0) 0
      ['a'] (List.replicate 281 'b') 7 = .error .MessageTooLong := by
  obtain ⟨h1, h2, h3, h4, h5, h6, h7, h8⟩ :=
    c4_length_boundaries stCre1 1 (counterAddress 1) 10 7 ⟨1, 1, 255⟩
      (entryAddress 1 0) 0 ⟨1, 0, ['a'], ['b'], 7, 255⟩ (by decide) (by decide)
      (by decide) (by decide) (by decide) (by decide) (by decide) (by decide)
      (by decide)
  exact ⟨h1 (List.replicate 50 'a') ['b'] (by decide) (by decide) (by decide),
    h2 (List.replicate 51 'a') ['b'] (by decide),
    h3 ['a'] (List.replicate 280 'b') (by decide) (by decide) (by decide),
    h4 ['a'] (List.replicate 281 'b') (by decide) (by decide),
    h5 (List.replicate 50 'a') ['b'] (by decide) (by decide) (by decide),
    h6 (List.replicate 51 'a') ['b'] (by decide),
    h7 ['a'] (List.replicate 280 'b') (by decide) (by decide) (by decide),
    h8 ['a'] (List.replicate 281 'b') (by decide) (by decide)⟩

/-- C5: the claim that every title accepted by the content-length check
fits within the byte budget reserved at creation fails on the code — the
check bounds the number of characters while the reservation budgets
`4 + max_character_count` bytes, so a title of 50 three-byte characters
(accepted: 50 chars) serializes to `4 + 150` bytes, exceeding the
`4 + 50`-byte reservation.  Evaluated at the failing input: the create
instruction accepts the title, and its serialized size exceeds the
reserved capacity. -/
theorem c5_space_check_divergence :
    (∃ st', add_journal_entry stInit 1 (counterAddress 1)
      (List.replicate 50 '€') ['m'] 7 10 = .ok st') ∧
    stringReserved MAX_TITLE_CHARS < stringSerialized (List.replicate 50 '€') :=
  ⟨⟨_, rfl⟩, by decide⟩

/-- State after creating a second record (sequence 1) on `stCre1`
(title "e", message "f", timestamp 8, rent 10). -/
def stCre2 : Chain :=
  ⟨[(counterAddress 1, ⟨1, 2, 255⟩)],
   [(entryAddress 1 1, ⟨1, 1, ['e'], ['f'], 8, 255⟩),
    (entryAddress 1 0, ⟨1, 0, ['a'], ['b'], 7, 255⟩)],
   [(entryAddress 1 1, 10), (entryAddress 1 0, 10), (counterAddress 1, 10)],
   [(1, 70)]⟩

/-- State after deleting the sequence-0 record from `stCre1`. -/
def stDel1 : Chain :=
  ⟨[(counterAddress 1, ⟨1, 1, 255⟩)], [],
   [(counterAddress 1, 10)], [(1, 90)]⟩

/-- C6: every successful delete leaves the owner's counter map entirely
untouched, removes exactly the targeted record, credits the record's
reclaimed lamports to the caller, and changes no other record; and in the
concrete scenario — create sequences 0 and 1 for owner 1, delete sequence
0 — the subsequent update of sequence 0 fails with `NotFound` and the
next create assigns sequence 2, never reusing 0. -/
theorem c6_delete_preserves_counter_and_gap :
    (∀ st signer addr entry_id st',
      delete_journal_entry st signer addr entry_id = .ok st' →
      st'.counters = st.counters ∧
      alookup st'.entries addr = none ∧
      (∀ a, a ≠ addr → alookup st'.entries a = alookup st.entries a) ∧
      aget st'.wallets signer =
        aget st.wallets signer + aget st.acctLamports addr) ∧
    (∃ stD stN,
      delete_journal_entry stCre2 1 (entryAddress 1 0) 0 = .ok stD ∧
      stD.counters = stCre2.counters ∧
      update_journal_entry stD 1 (entryAddress 1 0) 0 ['x'] ['y'] 9 =
        .error .NotFound ∧
      add_journal_entry stD 1 (counterAddress 1) ['c'] ['d'] 9 10 = .ok stN ∧
      alookup stN.entries (entryAddress 1 2) =
        some ⟨1, 2, ['c'], ['d'], 9, 255⟩ ∧
      alookup stN.entries (entryAddress 1 0) = none) := by
  constructor
  · intro st signer addr entry_id st' h
    obtain ⟨je, hje, hseeds, hauth, hst⟩ :=
      delete_ok_elim st signer addr entry_id st' h
    subst hst
    refine ⟨rfl, alookup_aerase_self _ _, ?_, ?_⟩
    · intro a ha
      exact alookup_aerase_ne _ _ _ ha
    · show aget (wset _ _ _) _ = _
      simp [aget, wset, alookup]
  · refine ⟨_, _, rfl, by decide, by decide, rfl, by decide, by decide⟩

/-- Witness for the universally quantified part of C6 at a concrete
input: deleting the sequence-0 record of `stCre1` leaves the counter
untouched, removes the record, and returns its 10 lamports to owner 1. -/
theorem c6_witness :
    delete_journal_entry stCre1 1 (entryAddress 1 0) 0 = .ok stDel1 ∧
    (stDel1.counters = stCre1.counters ∧
      alookup stDel1.entries (entryAddress 1 0) = none ∧
      (∀ a, a ≠ entryAddress 1 0 →
        alookup stDel1.entries a = alookup stCre1.entries a) ∧
      aget stDel1.wallets 1 =
        aget stCre1.wallets 1 + aget stCre1.acctLamports (entryAddress 1 0)) :=
  ⟨by decide, c6_delete_preserves_counter_and_gap.1 stCre1 1 (entryAddress 1 0) 0
    stDel1 (by decide)⟩

/-- C7: a successful counter creation stores `next_sequence = 0`, the
owner identity of the signer and the resolved disambiguator at the
owner's derived counter address, and any second counter creation for the
same owner always fails with `AlreadyInitialized` (whatever rent the
second call offers), so at most one counter ever resolves at that
address. -/
theorem c7_counter_created_once
    (st : Chain) (signer rent : Nat) (st' : Chain)
    (h : init_user_profile st signer rent = .ok st') :
    alookup st'.counters (counterAddress signer) =
      some ⟨signer, 0, counterBump signer⟩ ∧
    ∀ rent2, init_user_profile st' signer rent2 = .error .AlreadyInitialized := by
  obtain ⟨hnone, hfund, hst⟩ := init_ok_elim st signer rent st' h
  subst hst
  constructor
  · exact alookup_cons_self _ _ _
  · intro rent2
    unfold init_user_profile
    rw [alookup_cons_self]

/-- Witness for C7 at a concrete input: owner 1 on the genesis state. -/
theorem c7_witness :
    alookup stInit.counters (counterAddress 1) = some ⟨1, 0, counterBump 1⟩ ∧
    ∀ rent2, init_user_profile stInit 1 rent2 = .error .AlreadyInitialized :=
  c7_counter_created_once W0 1 10 stInit (by decide)

/-- State after owner 1 updates the sequence-0 record of `stCre1` with
title "x", message "y" at timestamp 9. -/
def stUpd1 : Chain :=
  ⟨[(counterAddress 1, ⟨1, 1, 255⟩)],
   [(entryAddress 1 0, ⟨1, 0, ['x'], ['y'], 9, 255⟩)],
   [(entryAddress 1 0, 10), (counterAddress 1, 10)],
   [(1, 80)]⟩

/-- C8: every successful update overwrites exactly the record's title,
body and timestamp (the timestamp is refreshed to the clock value of the
update), keeps the record's owner, sequence and disambiguator, and leaves
every other record, every counter, every account balance and every wallet
unchanged. -/
theorem c8_update_overwrites_content_only
    (st : Chain) (signer : Nat) (addr : Address) (entry_id : Nat)
    (title message : List Char) (now : Int) (st' : Chain)
    (h : update_journal_entry st signer addr entry_id title message now = .ok st') :
    ∃ je, alookup st.entries addr = some je ∧
      alookup st'.entries addr =
        some ⟨je.authority, je.id, title, message, now, je.bump⟩ ∧
      (∀ a, a ≠ addr → alookup st'.entries a = alookup st.entries a) ∧
      st'.counters = st.counters ∧
      st'.acctLamports = st.acctLamports ∧
      st'.wallets = st.wallets := by
  obtain ⟨je, hje, hseeds, hauth, ht, hm, hfit, hst⟩ :=
    update_ok_elim st signer addr entry_id title message now st' h
  subst hst
  refine ⟨je, hje, ?_, ?_, rfl, rfl, rfl⟩
  · show alookup (aset st.entries addr _) addr = _
    rw [alookup_aset_self, hje]
    rfl
  · intro a ha
    exact alookup_aset_ne _ _ _ _ ha

/-- Witness for C8 at a concrete input: owner 1 updates the sequence-0
record of `stCre1`. -/
theorem c8_witness :
    ∃ je, alookup stCre1.entries (entryAddress 1 0) = some je ∧
      alookup stUpd1.entries (entryAddress 1 0) =
        some ⟨je.authority, je.id, ['x'], ['y'], 9, je.bump⟩ ∧
      (∀ a, a ≠ entryAddress 1 0 →
        alookup stUpd1.entries a = alookup stCre1.entries a) ∧
      stUpd1.counters = stCre1.counters ∧
      stUpd1.acctLamports = stCre1.acctLamports ∧
      stUpd1.wallets = stCre1.wallets :=
  c8_update_overwrites_content_only stCre1 1 (entryAddress 1 0) 0 ['x'] ['y'] 9
    stUpd1 (by decide)

/-- C9: whenever the account resolved at the caller-supplied address
exists but its stored disambiguator does not reproduce that exact address
under re-derivation from the signer's key and the supplied key material,
the operation fails with the wrong-address error — not with not-found —
and therefore never proceeds against a record resolved through a
non-matching disambiguator.  This covers every record access that
re-verifies a stored disambiguator: the counter account in create, and
the record account in update and in delete. -/
theorem c9_bump_mismatch_fails_wrong_address :
    (∀ (st : Chain) (signer : Nat) (pAddr : Address) (title message : List Char)
      (now : Int) (rent : Nat) (p : UserProfile),
      alookup st.counters pAddr = some p →
      Address.counter signer p.bump ≠ pAddr →
      add_journal_entry st signer pAddr title message now rent =
        .error .WrongAddress) ∧
    (∀ (st : Chain) (signer : Nat) (addr : Address) (entry_id : Nat)
      (title message : List Char) (now : Int) (je : JournalEntry),
      alookup st.entries addr = some je →
      Address.entry signer entry_id je.bump ≠ addr →
      update_journal_entry st signer addr entry_id title message now =
        .error .WrongAddress) ∧
    (∀ (st : Chain) (signer : Nat) (addr : Address) (entry_id : Nat)
      (je : JournalEntry),
      alookup st.entries addr = some je →
      Address.entry signer entry_id je.bump ≠ addr →
      delete_journal_entry st signer addr entry_id = .error .WrongAddress) := by
  refine ⟨?_, ?_, ?_⟩
  · intro st signer pAddr title message now rent p hp hne
    unfold add_journal_entry
    rw [hp]
    dsimp only
    rw [if_pos hne]
  · intro st signer addr entry_id title message now je hje hne
    unfold update_journal_entry
    rw [hje]
    dsimp only
    rw [if_pos hne]
  · intro st signer addr entry_id je hje hne
    unfold delete_journal_entry
    rw [hje]
    dsimp only
    rw [if_pos hne]

/-- Witness for C9 at concrete inputs: on `stCre1`, a create whose signer
key does not reproduce the counter's address, and an update and a delete
whose supplied sequence does not reproduce the record's address, all fail
with the wrong-address error. -/
theorem c9_witness :
    add_journal_entry stCre1 2 (counterAddress 1) ['a'] ['b'] 7 10 =
      .error .WrongAddress ∧
    update_journal_entry stCre1 1 (entryAddress 1 0) 1 ['x'] ['y'] 9 =
      .error .WrongAddress ∧
    delete_journal_entry stCre1 1 (entryAddress 1 0) 1 =
      .error .WrongAddress :=
  ⟨c9_bump_mismatch_fails_wrong_address.1 stCre1 2 (counterAddress 1) ['a'] ['b']
      7 10 ⟨1, 1, 255⟩ (by decide) (by decide),
    c9_bump_mismatch_fails_wrong_address.2.1 stCre1 1 (entryAddress 1 0) 1
      ['x'] ['y'] 9 ⟨1, 0, ['a'], ['b'], 7, 255⟩ (by decide) (by decide),
    c9_bump_mismatch_fails_wrong_address.2.2 stCre1 1 (entryAddress 1 0) 1
      ⟨1, 0, ['a'], ['b'], 7, 255⟩ (by decide) (by decide)⟩

/-- C10: counter identity is immutable.  Counter creation stores the
signer as the counter's owner; a successful create requires the signer to
equal the counter's stored owner; and each of the four operations
preserves the stored owner and disambiguator of every pre-existing
counter (create may advance only `entry_count`; update and delete leave
the counter map untouched). -/
theorem c10_counter_identity_immutable :
    (∀ (st : Chain) (signer rent : Nat) (st' : Chain),
      init_user_profile st signer rent = .ok st' →
      alookup st'.counters (counterAddress signer) =
        some ⟨signer, 0, counterBump signer⟩ ∧
      ∀ a p, alookup st.counters a = some p → alookup st'.counters a = some p) ∧
    (∀ (st : Chain) (signer : Nat) (pAddr : Address) (title message : List Char)
      (now : Int) (rent : Nat) (st' : Chain),
      add_journal_entry st signer pAddr title message now rent = .ok st' →
      (∃ p, alookup st.counters pAddr = some p ∧ p.authority = signer) ∧
      ∀ a p, alookup st.counters a = some p →
        ∃ p2, alookup st'.counters a = some p2 ∧
          p2.authority = p.authority ∧ p2.bump = p.bump) ∧
    (∀ (st : Chain) (signer : Nat) (addr : Address) (entry_id : Nat)
      (title message : List Char) (now : Int) (st' : Chain),
      update_journal_entry st signer addr entry_id title message now = .ok st' →
      st'.counters = st.counters) ∧
    (∀ (st : Chain) (signer : Nat) (addr : Address) (entry_id : Nat) (st' : Chain),
      delete_journal_entry st signer addr entry_id = .ok st' →
      st'.counters = st.counters) := by
  refine ⟨?_, ?_, ?_, ?_⟩
  · intro st signer rent st' h
    obtain ⟨hnone, hfund, hst⟩ := init_ok_elim st signer rent st' h
    subst hst
    refine ⟨alookup_cons_self _ _ _, ?_⟩
    intro a p hap
    rcases eq_or_ne a (counterAddress signer) with rfl | hne
    · rw [hnone] at hap
      exact Option.noConfusion hap
    · show alookup ((counterAddress signer, _) :: st.counters) a = _
      rw [alookup_cons_ne _ _ _ _ (Ne.symm hne)]
      exact hap
  · intro st signer pAddr title message now rent st' h
    obtain ⟨p, hp, hseeds, hauth, hfresh, hfund, ht, hm, hfit, hof, hst⟩ :=
      add_ok_elim st signer pAddr title message now rent st' h
    subst hst
    refine ⟨⟨p, hp, hauth⟩, ?_⟩
    intro a q haq
    rcases eq_or_ne a pAddr with rfl | hne
    · rw [hp] at haq
      injection haq with haq
      subst haq
      refine ⟨⟨p.authority, p.entry_count + 1, p.bump⟩, ?_, rfl, rfl⟩
      show alookup (aset st.counters a _) a = _
      rw [alookup_aset_self, hp]
      rfl
    · refine ⟨q, ?_, rfl, rfl⟩
      show alookup (aset st.counters pAddr _) a = _
      rw [alookup_aset_ne _ _ _ _ hne]
      exact haq
  · intro st signer addr entry_id title message now st' h
    obtain ⟨je, hje, hseeds, hauth, ht, hm, hfit, hst⟩ :=
      update_ok_elim st signer addr entry_id title message now st' h
    subst hst
    rfl
  · intro st signer addr entry_id st' h
    obtain ⟨je, hje, hseeds, hauth, hst⟩ :=
      delete_ok_elim st signer addr entry_id st' h
    subst hst
    rfl

/-- Witness for C10 at concrete inputs: the counter-creating run from the
genesis state, the create on `stInit`, the update and the delete on
`stCre1`. -/
theorem c10_witness :
    (alookup stInit.counters (counterAddress 1) =
        some ⟨1, 0, counterBump 1⟩ ∧
      ∀ a p, alookup W0.counters a = some p →
        alookup stInit.counters a = some p) ∧
    ((∃ p, alookup stInit.counters (counterAddress 1) = some p ∧
        p.authority = 1) ∧
      ∀ a p, alookup stInit.counters a = some p →
        ∃ p2, alookup stCre1.counters a = some p2 ∧
          p2.authority = p.authority ∧ p2.bump = p.bump) ∧
    stUpd1.counters = stCre1.counters ∧
    stDel1.counters = stCre1.counters :=
  ⟨c10_counter_identity_immutable.1 W0 1 10 stInit (by decide),
    c10_counter_identity_immutable.2.1 stInit 1 (counterAddress 1) ['a'] ['b']
      7 10 stCre1 (by decide),
    c10_counter_identity_immutable.2.2.1 stCre1 1 (entryAddress 1 0) 0
      ['x'] ['y'] 9 stUpd1 (by decide),
    c10_counter_identity_immutable.2.2.2 stCre1 1 (entryAddress 1 0) 0 stDel1
      (by decide)⟩

end Journal
